import Mathlib

/-!
A shallow embedding of `database_forge.py`, a SQLAlchemy/SQLite product-catalog
batch tool.  The relational store is modelled as two row lists kept in
primary-key (rowid) order — SQLite stores rows in a B-tree keyed by the
`INTEGER PRIMARY KEY`, so a full table scan yields rows in id order.  Python
float literals in the seed data are two-decimal prices; they are modelled as
exact rationals.  Fallible Python code (KeyError on a dict lookup,
ZeroDivisionError on an empty mean) is modelled with `Except`.
-/

namespace DatabaseForge

/-- Row of the `categories` table (class `Category`, lines 19–30). -/
structure Category where
  category_id : Nat
  category_name : String
deriving DecidableEq

/-- Row of the `products` table (class `Product`, lines 32–45).
`category_id` carries the foreign key to `categories.category_id`. -/
structure Product where
  product_id : Nat
  product_name : String
  price : ℚ
  category_id : Nat
deriving DecidableEq

/-- The persistent store: the two tables, rows in rowid (= primary key) order. -/
structure Store where
  categories : List Category
  products : List Product

/-- A freshly created store (`create_database`, lines 47–56): both tables empty. -/
def emptyStore : Store := { categories := [], products := [] }

/-- The rowid SQLite assigns to the next inserted category: max existing id + 1. -/
def nextCategoryId (s : Store) : Nat :=
  (s.categories.map (·.category_id)).foldl Nat.max 0 + 1

/-- The rowid SQLite assigns to the next inserted product: max existing id + 1. -/
def nextProductId (s : Store) : Nat :=
  (s.products.map (·.product_id)).foldl Nat.max 0 + 1

/-- Effect on the store of committing one new `Category(category_name=name)`:
the row is appended with its generated id. -/
def insertCategoryRow (s : Store) (name : String) : Store :=
  { s with categories :=
      s.categories ++ [{ category_id := nextCategoryId s, category_name := name }] }

/-- Effect on the store of committing one new `Product(...)`: the row is
appended with its generated id. -/
def insertProductRow (s : Store) (name : String) (price : ℚ) (cid : Nat) : Store :=
  { s with products :=
      s.products ++ [{ product_id := nextProductId s, product_name := name,
                       price := price, category_id := cid }] }

/-- The SQL statements the session issues: two INSERT forms (used by
`populate_sample_data`) and the SELECT/COUNT forms issued by
`retrieve_and_display_data` (lines 128–180). -/
inductive SessionOp where
  | insertCategory (name : String)
  | insertProduct (name : String) (price : ℚ) (cid : Nat)
  | selectCategories
  | selectProductsByCategory (cid : Nat)
  | countProductRows
  | countCategoryRows
  | selectPrices
  | selectFirstByPriceDesc
  | selectFirstByPriceAsc
  | selectJoin
deriving DecidableEq

/-- Effect of one session statement on the tables.  SELECT and COUNT
statements read the tables and do not modify them; the INSERT forms append a
row with its generated id. -/
def applyOp (op : SessionOp) (s : Store) : Store :=
  match op with
  | .insertCategory name => insertCategoryRow s name
  | .insertProduct name price cid => insertProductRow s name price cid
  | .selectCategories => s
  | .selectProductsByCategory _ => s
  | .countProductRows => s
  | .countCategoryRows => s
  | .selectPrices => s
  | .selectFirstByPriceDesc => s
  | .selectFirstByPriceAsc => s
  | .selectJoin => s

/-- Whether a session statement writes to the tables. -/
def SessionOp.isWrite : SessionOp → Bool
  | .insertCategory _ => true
  | .insertProduct _ _ _ => true
  | .selectCategories => false
  | .selectProductsByCategory _ => false
  | .countProductRows => false
  | .countCategoryRows => false
  | .selectPrices => false
  | .selectFirstByPriceDesc => false
  | .selectFirstByPriceAsc => false
  | .selectJoin => false

/-- Running a sequence of session statements against the store. -/
def runOps (l : List SessionOp) (s : Store) : Store :=
  l.foldl (fun st op => applyOp op st) s

/-- The fixed seed category names (`categories_data`, lines 63–69). -/
def categories_data : List String :=
  ["Electronics", "Clothing", "Books", "Home & Garden", "Sports & Outdoors"]

/-- The fixed seed product triples (`products_data`, lines 83–101):
(product_name, price, category_name). -/
def products_data : List (String × ℚ × String) :=
  [("Smartphone", 699.99, "Electronics"),
   ("Laptop", 1299.99, "Electronics"),
   ("Wireless Headphones", 149.99, "Electronics"),
   ("Smart TV", 599.99, "Electronics"),
   ("T-Shirt", 19.99, "Clothing"),
   ("Jeans", 59.99, "Clothing"),
   ("Running Shoes", 89.99, "Clothing"),
   ("Winter Jacket", 129.99, "Clothing"),
   ("Python Programming Book", 39.99, "Books"),
   ("Data Science Handbook", 49.99, "Books"),
   ("Science Fiction Novel", 14.99, "Books"),
   ("Garden Hose", 24.99, "Home & Garden"),
   ("Lawn Mower", 299.99, "Home & Garden"),
   ("Plant Pot Set", 34.99, "Home & Garden"),
   ("Basketball", 29.99, "Sports & Outdoors"),
   ("Camping Tent", 159.99, "Sports & Outdoors"),
   ("Yoga Mat", 24.99, "Sports & Outdoors")]

/-- Lookup in the Python dict `category_map` (line 104): built by a
comprehension, so a later binding for the same key overrides an earlier one. -/
def dictLookup (m : List (String × Category)) (k : String) : Option Category :=
  m.foldl (fun r kv => if kv.1 = k then some kv.2 else r) none

/-- The seeder's failure: `category_map[cat_name]` raises KeyError when the
name is absent (line 112); the spec names this condition SeedIntegrityError. -/
inductive SeedError where
  | seedIntegrityError
deriving DecidableEq

/-- Observable steps of the seeding run, for stating its temporal order:
the category batch commit (line 79, carrying the ids it made visible),
each `Product(...)` construction (lines 109–113), and the product batch
commit (line 117). -/
inductive SeedEvent where
  | commitCategories (ids : List Nat)
  | constructProduct (name : String) (cid : Nat)
  | commitProducts
deriving DecidableEq

/-- Lines 107–115: iterate the seed triples in order, resolving each
`cat_name` through `category_map`; a missing name fails the whole loop at
that triple.  Returns the pending (name, price, category_id) records and the
construction events in order. -/
def buildProducts (category_map : List (String × Category)) :
    List (String × ℚ × String) → Except SeedError (List (String × ℚ × Nat) × List SeedEvent)
  | [] => .ok ([], [])
  | (prod_name, price, cat_name) :: rest =>
    match dictLookup category_map cat_name with
    | none => .error .seedIntegrityError
    | some cat =>
      match buildProducts category_map rest with
      | .error e => .error e
      | .ok (ps, evs) =>
        .ok ((prod_name, price, cat.category_id) :: ps,
             .constructProduct prod_name cat.category_id :: evs)

/-- Lines 72–79: add the five seed categories to the session and commit the
batch, which assigns and makes visible their generated ids. -/
def addCategories (st : Store) : Store :=
  categories_data.foldl (fun s name => applyOp (.insertCategory name) s) st

/-- The category rows the seeding commit just created (the Python `categories`
list after line 79, now carrying generated ids). -/
def newCategories (st : Store) : List Category :=
  (addCategories st).categories.drop st.categories.length

/-- Line 104: the name → Category mapping built from the just-inserted
categories. -/
def seedCategoryMap (st : Store) : List (String × Category) :=
  (newCategories st).map (fun c => (c.category_name, c))

/-- Line 117: commit the pending product batch; the store assigns each row
its generated id in insertion order. -/
def commitPendingProducts (s : Store) (pending : List (String × ℚ × Nat)) : Store :=
  pending.foldl (fun st t => applyOp (.insertProduct t.1 t.2.1 t.2.2) st) s

/-- `populate_sample_data` (lines 58–118), instrumented with its event trace:
commit the category batch, build the product records by resolving names
through the mapping (KeyError → SeedIntegrityError), then commit the product
batch. -/
def populate_sample_data_traced (st : Store) :
    Except SeedError (Store × List SeedEvent) :=
  match buildProducts (seedCategoryMap st) products_data with
  | .error e => .error e
  | .ok (pending, evs) =>
    .ok (commitPendingProducts (addCategories st) pending,
         .commitCategories ((newCategories st).map (·.category_id)) :: evs ++ [.commitProducts])

/-- `populate_sample_data` (lines 58–118): the store effect alone. -/
def populate_sample_data (st : Store) : Except SeedError Store :=
  (populate_sample_data_traced st).map (·.1)

/-- `session.query(Category).count()` (line 199). -/
def countCategories (s : Store) : Nat := s.categories.length

/-- `session.query(Product).count()` (line 157). -/
def countProducts (s : Store) : Nat := s.products.length

/-- The seed-if-empty step of `main` (lines 199–205): populate only when the
category count is zero, otherwise perform no writes. -/
def seedIfEmpty (s : Store) : Except SeedError Store :=
  if countCategories s = 0 then populate_sample_data s else .ok s

/-- `session.query(Category).all()` (line 128): a full scan of `categories`,
returned in stored (rowid = id) order. -/
def listCategories (s : Store) : List Category := s.categories

/-- `session.query(Product).filter_by(category_id=...).all()` (line 140). -/
def productsByCategory (s : Store) (cid : Nat) : List Product :=
  s.products.filter (fun p => p.category_id == cid)

/-- The per-category total (lines 145–148): `total_value = 0` then
`total_value += product.price` over that category's products. -/
def categoryTotalValue (s : Store) (cid : Nat) : ℚ :=
  (productsByCategory s cid).foldl (fun acc p => acc + p.price) 0

/-- `.first()` after an ORDER BY on price: the first row attaining the
extreme under `better`, scanning in stored row order. -/
def firstByOrder (better : Product → Product → Bool) (ps : List Product) : Option Product :=
  ps.foldl
    (fun acc p =>
      match acc with
      | none => some p
      | some q => if better p q then some p else acc)
    none

/-- `session.query(Product).order_by(Product.price.desc()).first()` (line 163). -/
def mostExpensiveProduct (s : Store) : Option Product :=
  firstByOrder (fun p q => decide (q.price < p.price)) s.products

/-- `session.query(Product).order_by(Product.price.asc()).first()` (line 166). -/
def leastExpensiveProduct (s : Store) : Option Product :=
  firstByOrder (fun p q => decide (p.price < q.price)) s.products

/-- How the overall-statistics block fails: line 160 divides the price sum by
the row count, so zero products raises Python's ZeroDivisionError.  The spec
instead names an EmptyCatalogError for this condition; the code has no such
error and no defined-as-zero policy. -/
inductive ReportError where
  | zeroDivisionError
  | emptyCatalogError
deriving DecidableEq

/-- The overall statistics block (lines 157–172). -/
structure OverallStats where
  totalProducts : Nat
  totalCategories : Nat
  averagePrice : ℚ
  mostExpensive : Option Product
  leastExpensive : Option Product
deriving DecidableEq

/-- Lines 157–166: counts, mean price (`sum(...) / len(...)`, which raises
ZeroDivisionError on an empty product table), and the two price extremes. -/
def overallStats (s : Store) : Except ReportError OverallStats :=
  let prices := s.products.map (·.price)
  if prices.length = 0 then .error .zeroDivisionError
  else
    .ok { totalProducts := countProducts s
          totalCategories := countCategories s
          averagePrice := prices.foldl (· + ·) 0 / (prices.length : ℚ)
          mostExpensive := mostExpensiveProduct s
          leastExpensive := leastExpensiveProduct s }

/-- `session.query(Product, Category).join(Category).all()` (line 180): the
inner join of products with categories on `category_id`, products-major. -/
def joinedListing (s : Store) : List (Product × Category) :=
  s.products.flatMap fun p =>
    (s.categories.filter (fun c => c.category_id == p.category_id)).map (fun c => (p, c))

/-- The whole report of `retrieve_and_display_data` (lines 120–186), in the
order the source computes it: category list, per-category product lists and
totals, overall statistics (whose ZeroDivisionError aborts the rest), join. -/
structure Report where
  categories : List Category
  perCategory : List (Category × List Product × ℚ)
  stats : OverallStats
  joined : List (Product × Category)

/-- `retrieve_and_display_data` (lines 120–186) as the data it renders. -/
def retrieve_and_display_data (s : Store) : Except ReportError Report :=
  let categories := listCategories s
  let perCategory := categories.map
    (fun c => (c, productsByCategory s c.category_id, categoryTotalValue s c.category_id))
  match overallStats s with
  | .error e => .error e
  | .ok stats =>
    .ok { categories := categories, perCategory := perCategory,
          stats := stats, joined := joinedListing s }

/-- The session statements `retrieve_and_display_data` issues against the
store, in source order (lines 128, 140 per listed category, 157–166, 180). -/
def reportOps (s : Store) : List SessionOp :=
  [SessionOp.selectCategories]
    ++ (listCategories s).map (fun c => SessionOp.selectProductsByCategory c.category_id)
    ++ [SessionOp.countProductRows, SessionOp.countCategoryRows, SessionOp.selectPrices,
        SessionOp.selectFirstByPriceDesc, SessionOp.selectFirstByPriceAsc, SessionOp.selectJoin]

/-- Store states this system itself can produce: a fresh store, a state after
the seed-if-empty step, and a state after the report's session statements. -/
inductive Reachable : Store → Prop where
  | empty : Reachable emptyStore
  | seed {s s' : Store} : Reachable s → seedIfEmpty s = .ok s' → Reachable s'
  | report {s : Store} : Reachable s → Reachable (runOps (reportOps s) s)

/-- The store the seeding run produces from an empty store: category ids 1–5
and product ids 1–17, assigned in insertion order. -/
def seededStore : Store :=
  { categories :=
      [⟨1, "Electronics"⟩, ⟨2, "Clothing"⟩, ⟨3, "Books"⟩,
       ⟨4, "Home & Garden"⟩, ⟨5, "Sports & Outdoors"⟩]
    products :=
      [⟨1, "Smartphone", 699.99, 1⟩,
       ⟨2, "Laptop", 1299.99, 1⟩,
       ⟨3, "Wireless Headphones", 149.99, 1⟩,
       ⟨4, "Smart TV", 599.99, 1⟩,
       ⟨5, "T-Shirt", 19.99, 2⟩,
       ⟨6, "Jeans", 59.99, 2⟩,
       ⟨7, "Running Shoes", 89.99, 2⟩,
       ⟨8, "Winter Jacket", 129.99, 2⟩,
       ⟨9, "Python Programming Book", 39.99, 3⟩,
       ⟨10, "Data Science Handbook", 49.99, 3⟩,
       ⟨11, "Science Fiction Novel", 14.99, 3⟩,
       ⟨12, "Garden Hose", 24.99, 4⟩,
       ⟨13, "Lawn Mower", 299.99, 4⟩,
       ⟨14, "Plant Pot Set", 34.99, 4⟩,
       ⟨15, "Basketball", 29.99, 5⟩,
       ⟨16, "Camping Tent", 159.99, 5⟩,
       ⟨17, "Yoga Mat", 24.99, 5⟩] }

/-- The event trace of the seeding run from an empty store. -/
def seedTrace : List SeedEvent :=
  [.commitCategories [1, 2, 3, 4, 5],
   .constructProduct "Smartphone" 1,
   .constructProduct "Laptop" 1,
   .constructProduct "Wireless Headphones" 1,
   .constructProduct "Smart TV" 1,
   .constructProduct "T-Shirt" 2,
   .constructProduct "Jeans" 2,
   .constructProduct "Running Shoes" 2,
   .constructProduct "Winter Jacket" 2,
   .constructProduct "Python Programming Book" 3,
   .constructProduct "Data Science Handbook" 3,
   .constructProduct "Science Fiction Novel" 3,
   .constructProduct "Garden Hose" 4,
   .constructProduct "Lawn Mower" 4,
   .constructProduct "Plant Pot Set" 4,
   .constructProduct "Basketball" 5,
   .constructProduct "Camping Tent" 5,
   .constructProduct "Yoga Mat" 5,
   .commitProducts]

/-- Positions of the category batch commit in a seed trace. -/
def commitCategoryIndices (tr : List SeedEvent) : List Nat :=
  (List.range tr.length).filter fun i =>
    match tr.get? i with
    | some (.commitCategories _) => true
    | _ => false

/-- Positions of product-record constructions in a seed trace. -/
def constructIndices (tr : List SeedEvent) : List Nat :=
  (List.range tr.length).filter fun i =>
    match tr.get? i with
    | some (.constructProduct _ _) => true
    | _ => false

/-- Seeding an empty store commits exactly the fixed catalog, with ids
assigned in insertion order, and emits the expected event trace. -/
theorem populate_traced_empty_eq :
    populate_sample_data_traced emptyStore = .ok (seededStore, seedTrace) := rfl

/-- The seed-if-empty step, run on a fresh store, produces the seeded store. -/
theorem seedIfEmpty_empty : seedIfEmpty emptyStore = .ok seededStore := rfl

/-- The seed-if-empty step is a no-op on the already-seeded store. -/
theorem seedIfEmpty_seeded : seedIfEmpty seededStore = .ok seededStore := rfl

/-- The seeded store is a state this system itself produces. -/
theorem reachable_seeded : Reachable seededStore :=
  Reachable.seed Reachable.empty seedIfEmpty_empty

/-- A session statement that is not a write leaves the tables untouched. -/
theorem applyOp_of_not_write (op : SessionOp) (s : Store) (h : op.isWrite = false) :
    applyOp op s = s := by
  cases op <;> first | rfl | simp [SessionOp.isWrite] at h

/-- Running a sequence of non-writing statements leaves the tables untouched. -/
theorem runOps_of_reads (l : List SessionOp) (s : Store)
    (h : ∀ op ∈ l, op.isWrite = false) : runOps l s = s := by
  induction l generalizing s with
  | nil => rfl
  | cons op ops ih =>
    have h1 : applyOp op s = s := applyOp_of_not_write op s (h op (List.mem_cons_self _ _))
    show runOps ops (applyOp op s) = s
    rw [h1]
    exact ih s fun o ho => h o (List.mem_cons_of_mem _ ho)

/-- Every statement the report issues is a read. -/
theorem reportOps_reads (s : Store) : ∀ op ∈ reportOps s, op.isWrite = false := by
  intro op hop
  simp only [reportOps, List.mem_append, List.mem_map, List.mem_cons,
    List.not_mem_nil, or_false] at hop
  rcases hop with (rfl | ⟨c, _, rfl⟩) | rfl | rfl | rfl | rfl | rfl | rfl <;> rfl

/-- Committing the pending product batch does not touch the categories table. -/
theorem commitPendingProducts_categories (pending : List (String × ℚ × Nat)) (s : Store) :
    (commitPendingProducts s pending).categories = s.categories := by
  induction pending generalizing s with
  | nil => rfl
  | cons t ts ih =>
    show (commitPendingProducts (applyOp _ s) ts).categories = _
    rw [ih]
    rfl

/-- Committing the category batch adds exactly the five seed categories. -/
theorem addCategories_count (st : Store) :
    countCategories (addCategories st) = countCategories st + 5 := by
  simp [addCategories, categories_data, applyOp, insertCategoryRow, countCategories]

/-- A successful seeding run grows the category count by exactly five. -/
theorem populate_count (st s' : Store) (h : populate_sample_data st = .ok s') :
    countCategories s' = countCategories st + 5 := by
  unfold populate_sample_data populate_sample_data_traced at h
  cases hb : buildProducts (seedCategoryMap st) products_data with
  | error e => rw [hb] at h; simp [Except.map] at h
  | ok pe =>
    rw [hb] at h
    obtain ⟨pending, evs⟩ := pe
    simp only [Except.map, Except.ok.injEq] at h
    rw [← h, countCategories, commitPendingProducts_categories]
    exact addCategories_count st

/-- The only states this system's operations can produce are the fresh store
and the seeded store. -/
theorem reachable_cases (s : Store) (h : Reachable s) :
    s = emptyStore ∨ s = seededStore := by
  induction h with
  | empty => exact Or.inl rfl
  | seed hr hok ih =>
    rcases ih with h1 | h1
    · subst h1
      rw [seedIfEmpty_empty] at hok
      injection hok with h2
      exact Or.inr h2.symm
    · subst h1
      rw [seedIfEmpty_seeded] at hok
      injection hok with h2
      exact Or.inr h2.symm
  | report hr ih =>
    rw [runOps_of_reads _ _ (reportOps_reads _)]
    exact ih

/-- C1 (amended): after seeding the fixed seed data into an empty store,
`overallStats` reports totalProducts = 17, totalCategories = 5, averagePrice
equal to the arithmetic mean of the 17 literal seed prices — which is
372983/1700 = 3729.83/17, between $219.40 and $219.41, not ≈ $201.74 as the
spec states — mostExpensive the product "Laptop" at 1299.99, and
leastExpensive "Science Fiction Novel" at 14.99. -/
theorem overall_stats_after_seed :
    seedIfEmpty emptyStore = .ok seededStore
    ∧ overallStats seededStore = .ok
        { totalProducts := 17
          totalCategories := 5
          averagePrice := 372983 / 1700
          mostExpensive := some ⟨2, "Laptop", 1299.99, 1⟩
          leastExpensive := some ⟨11, "Science Fiction Novel", 14.99, 3⟩ }
    ∧ (372983 / 1700 : ℚ) =
        (699.99 + 1299.99 + 149.99 + 599.99 + 19.99 + 59.99 + 89.99 + 129.99
          + 39.99 + 49.99 + 14.99 + 24.99 + 299.99 + 34.99 + 29.99 + 159.99 + 24.99) / 17
    ∧ (219.40 : ℚ) < 372983 / 1700 ∧ (372983 / 1700 : ℚ) < 219.41 := by
  refine ⟨rfl, ?_, by norm_num, by norm_num, by norm_num⟩
  norm_num [overallStats, countProducts, countCategories, mostExpensiveProduct,
    leastExpensiveProduct, firstByOrder, seededStore]

/-- C1 counterexample: the averagePrice after seeding is 372983/1700
(≈ $219.40), which is not within a dollar of the $201.74 the claim repeats
from the spec. -/
theorem spec_average_price_refuted :
    (overallStats seededStore).map (fun st => st.averagePrice) = .ok (372983 / 1700)
    ∧ (201.74 : ℚ) + 17 < 372983 / 1700 := by
  refine ⟨?_, by norm_num⟩
  norm_num [overallStats, Except.map, countProducts, countCategories, seededStore]

/-- C2: running the seed-if-empty step twice is the same as running it once
(hence the same row counts), and when the category count is non-zero the step
performs no writes at all. -/
theorem seed_if_empty_idempotent (s : Store) :
    (seedIfEmpty s).bind seedIfEmpty = seedIfEmpty s
    ∧ (countCategories s ≠ 0 → seedIfEmpty s = .ok s) := by
  refine ⟨?_, fun h => by simp [seedIfEmpty, h]⟩
  by_cases h : countCategories s = 0
  · have h1 : seedIfEmpty s = populate_sample_data s := by simp [seedIfEmpty, h]
    rw [h1]
    cases hp : populate_sample_data s with
    | error e => rfl
    | ok s' =>
      have hc : countCategories s' = countCategories s + 5 := populate_count s s' hp
      show seedIfEmpty s' = .ok s'
      simp [seedIfEmpty, hc, h]
  · simp [seedIfEmpty, h, Except.bind]

/-- C2 witness: the idempotence no-op branch at the seeded store. -/
theorem seed_if_empty_idempotent_witness :
    countCategories seededStore ≠ 0 ∧ seedIfEmpty seededStore = .ok seededStore :=
  ⟨by decide, (seed_if_empty_idempotent seededStore).2 (by decide)⟩

/-- C3 counterexample: on a store with zero products, `overallStats` fails
with the uncaught ZeroDivisionError from `sum(...) / len(...)`, not with
EmptyCatalogError, and does not return a defined-as-zero result. -/
theorem overall_stats_empty_zero_division :
    overallStats emptyStore = .error .zeroDivisionError
    ∧ overallStats emptyStore ≠ .error .emptyCatalogError
    ∧ ∀ st : OverallStats, overallStats emptyStore ≠ .ok st := by
  refine ⟨rfl, ?_, ?_⟩
  · intro h
    rw [show overallStats emptyStore = .error .zeroDivisionError from rfl] at h
    injection h with h2
    exact ReportError.noConfusion h2
  · intro st h
    rw [show overallStats emptyStore = .error .zeroDivisionError from rfl] at h
    exact Except.noConfusion h

/-- C3 (amended): `overallStats` on zero products computes the mean over the
empty set and fails with an uncaught ZeroDivisionError at the division by the
row count; it never fails with EmptyCatalogError (the code has no such error
and no documented defined-as-zero policy). -/
theorem overall_stats_empty_policy (s : Store) :
    (overallStats s = .error .zeroDivisionError ↔ s.products = [])
    ∧ overallStats s ≠ .error .emptyCatalogError := by
  cases hp : s.products with
  | nil => simp [overallStats, hp]
  | cons p ps => simp [overallStats, hp]

/-- C3 amendment witness: the zero-division failure at the concrete empty store. -/
theorem overall_stats_empty_policy_witness :
    overallStats emptyStore = .error .zeroDivisionError :=
  (overall_stats_empty_policy emptyStore).1.mpr rfl

/-- C4: in every store state reachable by this system's operations, every
product row has exactly one category row whose id equals its categoryId. -/
theorem referential_integrity_reachable :
    ∀ s : Store, Reachable s → ∀ p ∈ s.products,
      (s.categories.filter fun c => c.category_id == p.category_id).length = 1 := by
  intro s hs
  rcases reachable_cases s hs with h | h <;> subst h <;> decide

/-- C4 witness: the seeded store's first product has exactly one matching
category row. -/
theorem referential_integrity_reachable_witness :
    (seededStore.categories.filter fun c => c.category_id == (1 : Nat)).length = 1 :=
  referential_integrity_reachable seededStore reachable_seeded
    ⟨1, "Smartphone", 699.99, 1⟩ (List.Mem.head _)

/-- C5: in every store state this system reaches, `listCategories` returns
all category rows, in ascending id order (the code issues no ORDER BY; rows
come back in rowid = id order, and every reachable state stores them so). -/
theorem list_categories_sorted :
    ∀ s : Store, Reachable s →
      listCategories s = s.categories
      ∧ (listCategories s).Pairwise fun a b => a.category_id < b.category_id := by
  intro s hs
  refine ⟨rfl, ?_⟩
  rcases reachable_cases s hs with h | h <;> subst h <;> decide

/-- C5 witness: the seeded store's category listing is ascending in id. -/
theorem list_categories_sorted_witness :
    (listCategories seededStore).Pairwise fun a b => a.category_id < b.category_id :=
  (list_categories_sorted seededStore reachable_seeded).2

/-- C6: seeding the fixed seed list succeeds — every seed product's category
name is in the just-built mapping, so the lookup-failure branch is not taken —
and in general the product-building loop fails with SeedIntegrityError exactly
when some triple's category name is absent from the mapping. -/
theorem seed_integrity_unreachable :
    populate_sample_data emptyStore = .ok seededStore
    ∧ (products_data.all fun t => categories_data.contains t.2.2) = true
    ∧ ∀ (m : List (String × Category)) (l : List (String × ℚ × String)),
        buildProducts m l = .error .seedIntegrityError ↔ ∃ t ∈ l, dictLookup m t.2.2 = none := by
  refine ⟨rfl, by decide, ?_⟩
  intro m l
  induction l with
  | nil => simp [buildProducts]
  | cons t ts ih =>
    obtain ⟨n, price, cname⟩ := t
    constructor
    · intro h
      simp only [buildProducts] at h
      cases hd : dictLookup m cname with
      | none => exact ⟨(n, price, cname), List.mem_cons_self _ _, hd⟩
      | some cat =>
        rw [hd] at h
        cases hb : buildProducts m ts with
        | error e =>
          cases e
          obtain ⟨t', ht', hl⟩ := ih.mp hb
          exact ⟨t', List.mem_cons_of_mem _ ht', hl⟩
        | ok pe =>
          rw [hb] at h
          obtain ⟨ps, evs⟩ := pe
          simp at h
    · rintro ⟨t', ht', hl⟩
      rcases List.mem_cons.mp ht' with h1 | h1
      · subst h1
        simp only at hl
        simp only [buildProducts, hl]
      · simp only [buildProducts]
        cases hd : dictLookup m cname with
        | none => rfl
        | some cat =>
          rw [ih.mpr ⟨t', h1, hl⟩]

/-- C6 witness: the failure direction at a mapping that misses the name. -/
theorem seed_integrity_unreachable_witness :
    buildProducts [] [("Widget", 1, "Gadgets")] = .error .seedIntegrityError :=
  (seed_integrity_unreachable.2.2 [] [("Widget", 1, "Gadgets")]).mpr
    ⟨("Widget", 1, "Gadgets"), List.mem_cons_self _ _, rfl⟩

/-- C7: in the seeding run's event trace, the category batch commit (which
makes the generated category ids visible) is the sole commit-categories event,
sits at position 0, and strictly precedes all 17 product constructions. -/
theorem commit_precedes_construction :
    populate_sample_data_traced emptyStore = .ok (seededStore, seedTrace)
    ∧ commitCategoryIndices seedTrace = [0]
    ∧ (constructIndices seedTrace).length = 17
    ∧ ∀ i ∈ commitCategoryIndices seedTrace, ∀ j ∈ constructIndices seedTrace, i < j :=
  ⟨rfl, by decide, by decide, by decide⟩

/-- C7 witness: the commit position 0 precedes the first construction at 1. -/
theorem commit_precedes_construction_witness :
    0 ∈ commitCategoryIndices seedTrace ∧ 1 ∈ constructIndices seedTrace ∧ 0 < 1 :=
  ⟨by decide, by decide, commit_precedes_construction.2.2.2 0 (by decide) 1 (by decide)⟩

/-- C8: the category named "Electronics" is row 1 of the seeded store, its
total value is 699.99 + 1299.99 + 149.99 + 599.99 = 2749.96, and in any store
a category with no products totals 0. -/
theorem electronics_total_value :
    seededStore.categories.filter (fun c => c.category_name == "Electronics") = [⟨1, "Electronics"⟩]
    ∧ categoryTotalValue seededStore 1 = 2749.96
    ∧ (699.99 + 1299.99 + 149.99 + 599.99 : ℚ) = 2749.96
    ∧ ∀ (s : Store) (cid : Nat), productsByCategory s cid = [] → categoryTotalValue s cid = 0 := by
  refine ⟨by decide, ?_, by norm_num, ?_⟩
  · norm_num [categoryTotalValue, productsByCategory, seededStore]
  · intro s cid h
    rw [categoryTotalValue, h]
    rfl

/-- C8 witness: the empty-category clause at the fresh store. -/
theorem electronics_total_value_witness :
    productsByCategory emptyStore 1 = [] ∧ categoryTotalValue emptyStore 1 = 0 :=
  ⟨rfl, electronics_total_value.2.2.2 emptyStore 1 rfl⟩

/-- C9: after seeding, the join returns exactly 17 pairs — one per product,
in product order — each pairing a product with the category whose id equals
its categoryId (first pair: "Smartphone" with "Electronics"); and in any
store a product with no matching category contributes no pair (inner join). -/
theorem joined_listing_inner_join :
    (joinedListing seededStore).length = 17
    ∧ (joinedListing seededStore).map Prod.fst = seededStore.products
    ∧ (∀ pc ∈ joinedListing seededStore, pc.2.category_id = pc.1.category_id)
    ∧ (joinedListing seededStore).head? =
        some (⟨1, "Smartphone", 699.99, 1⟩, ⟨1, "Electronics"⟩)
    ∧ ∀ (s : Store) (p : Product),
        s.categories.filter (fun c => c.category_id == p.category_id) = [] →
        ∀ c : Category, (p, c) ∉ joinedListing s := by
  refine ⟨rfl, rfl, by decide, rfl, ?_⟩
  intro s p hf c hc
  simp only [joinedListing, List.mem_flatMap, List.mem_map] at hc
  obtain ⟨q, hq, c', hc', heq⟩ := hc
  rw [Prod.mk.injEq] at heq
  obtain ⟨rfl, rfl⟩ := heq
  rw [hf] at hc'
  exact List.not_mem_nil _ hc'

/-- C9 witness: a product with no matching category is excluded from the join. -/
theorem joined_listing_inner_join_witness :
    ((⟨1, "Widget", 5, 1⟩ : Product), (⟨1, "Ghost"⟩ : Category)) ∉ joinedListing emptyStore :=
  joined_listing_inner_join.2.2.2.2 emptyStore ⟨1, "Widget", 5, 1⟩ rfl ⟨1, "Ghost"⟩

/-- C10: the report phase performs no writes — running any selection of the
session statements `retrieve_and_display_data` issues (including all of them,
or the prefix issued before a mid-report failure) leaves the categories and
products tables exactly unchanged, in every store state. -/
theorem report_performs_no_writes :
    ∀ (s : Store) (l : List SessionOp), (∀ op ∈ l, op ∈ reportOps s) → runOps l s = s := by
  intro s l h
  exact runOps_of_reads l s fun op hop => reportOps_reads s op (h op hop)

/-- C10 witness: the full report statement list at the seeded store. -/
theorem report_performs_no_writes_witness :
    runOps (reportOps seededStore) seededStore = seededStore :=
  report_performs_no_writes seededStore (reportOps seededStore) fun _ h => h

end DatabaseForge
